import Mathlib

/-!
Shallow embedding of the ps-alloc guarded allocator (src/lib.rs, src/error.rs).

Machine integers are modelled as `Nat` with explicit bounds: `usize` values are
kept below `2 ^ 64` by the checked operations, exactly as the source
`checked_add` / `checked_next_multiple_of` do.  Memory is a byte map
`Nat → Nat`; the backing allocator (`std::alloc`) is an oracle that, given the
history of layout requests, returns the block address of the next allocation
(`0` models the null pointer).  Every call into and release back to the backing
allocator is recorded in the heap state, so a property such as the backing
allocator observing exactly one release is a statement about those lists.
-/

namespace PsAlloc

/-- usize::MAX on the 64-bit targets the crate is built for. -/
def USIZE_MAX : Nat := 2 ^ 64 - 1

/-- isize::MAX, the bound enforced by `Layout::from_size_align`. -/
def ISIZE_MAX : Nat := 2 ^ 63 - 1

/-- size_of::<AllocationHeader>(): an 8-byte marker plus an 8-byte usize under
`repr(align(16))` occupy 16 bytes. -/
def HEADER_SIZE : Nat := 16

/-- align_of::<AllocationHeader>(), fixed by `repr(align(16))`. -/
def HEADER_ALIGN : Nat := 16

/-- MARKER_FREE, the eight ASCII bytes of Fr33Mmry. -/
def MARKER_FREE : List Nat := [0x46, 0x72, 0x33, 0x33, 0x4D, 0x6D, 0x72, 0x79]

/-- MARKER_USED, the eight ASCII bytes of U53dMmry. -/
def MARKER_USED : List Nat := [0x55, 0x35, 0x33, 0x64, 0x4D, 0x6D, 0x72, 0x79]

/-- Model of the Rust operation `usize::checked_add`. -/
def checked_add (a b : Nat) : Option Nat :=
  if a + b ≤ USIZE_MAX then some (a + b) else none

/-- Model of the Rust operation `usize::next_multiple_of` for a non-zero modulus: the least multiple
of `m` that is at least `a`. -/
def next_multiple_of (a m : Nat) : Nat := (a + m - 1) / m * m

/-- Model of the Rust operation `usize::checked_next_multiple_of`: `none` when the modulus is zero
or the rounded value does not fit in a usize. -/
def checked_next_multiple_of (a m : Nat) : Option Nat :=
  if m = 0 then none
  else if next_multiple_of a m ≤ USIZE_MAX then some (next_multiple_of a m) else none

/-- Model of the Rust operation `usize::is_power_of_two`. -/
def is_power_of_two (n : Nat) : Bool := n != 0 && (n &&& (n - 1)) == 0

/-- Model of `std::alloc::Layout`: a validated (size, alignment) pair. -/
structure Layout where
  size : Nat
  align : Nat
deriving DecidableEq

/-- Model of `Layout::from_size_align`: requires a power-of-two alignment and a size
that, already being compatible with the alignment check, stays within
`isize::MAX - (align - 1)`. -/
def layout_from_size_align (size align : Nat) : Option Layout :=
  if is_power_of_two align = true ∧ size ≤ ISIZE_MAX - (align - 1) then
    some ⟨size, align⟩
  else
    none

/-- error.rs: `AllocationError`. -/
inductive AllocationError
  | ArithmeticError
  | ImproperAlignment
  | LayoutError
  | OutOfMemory
deriving DecidableEq

/-- error.rs: `DeallocationError`. -/
inductive DeallocationError
  | DoubleFree
  | ImproperAlignment
  | InvalidAllocation
  | LayoutError
  | NullPtr
deriving DecidableEq

/-- error.rs: `ReallocationError`. -/
inductive ReallocationError
  | AllocationError (e : PsAlloc.AllocationError)
  | DeallocationError (e : PsAlloc.DeallocationError)
  | FreeFailedTwice (first second : PsAlloc.DeallocationError)
  | ImproperAlignment
  | InvalidPointer
  | UseAfterFree
deriving DecidableEq

instance {ε α : Type} [DecidableEq ε] [DecidableEq α] : DecidableEq (Except ε α) := fun x y =>
  match x, y with
  | .ok a, .ok b => if h : a = b then isTrue (by rw [h]) else isFalse (by simp [h])
  | .error a, .error b => if h : a = b then isTrue (by rw [h]) else isFalse (by simp [h])
  | .ok _, .error _ => isFalse (by simp)
  | .error _, .ok _ => isFalse (by simp)

/-- One request made to `std::alloc::alloc` (the layout argument). -/
structure BackingCall where
  size : Nat
  align : Nat
deriving DecidableEq

/-- One release made through `std::alloc::dealloc`: address plus layout. -/
structure BackingRelease where
  addr : Nat
  size : Nat
  align : Nat
deriving DecidableEq

/-- The mutable world the crate operates on: byte memory plus the observable
history of backing-allocator requests and releases. -/
structure Heap where
  mem : Nat → Nat
  allocCalls : List BackingCall
  releaseCalls : List BackingRelease

/-- Behaviour of the backing allocator: given the history of previous layout
requests and the layout being requested now, the block address it returns
(`0` is a null result). -/
def Oracle : Type := List BackingCall → Layout → Nat

/-- Write the bytes `bs` into memory starting at `addr`. -/
def writeBytes (mem : Nat → Nat) (addr : Nat) (bs : List Nat) : Nat → Nat :=
  fun a => if addr ≤ a ∧ a - addr < bs.length then bs.getD (a - addr) 0 else mem a

/-- Read `n` bytes of memory starting at `addr`. -/
def readBytes (mem : Nat → Nat) (addr n : Nat) : List Nat :=
  (List.range n).map fun i => mem (addr + i)

/-- Little-endian byte image of a `usize` value, as stored in the `size` field of a header. -/
def usizeToBytes (v : Nat) : List Nat :=
  (List.range 8).map fun i => v / 2 ^ (8 * i) % 256

/-- Decode the little-endian byte image of a `usize` field. -/
def bytesToUsize (bs : List Nat) : Nat :=
  bs.foldr (fun b acc => b + 256 * acc) 0

/-- Model of `std::ptr::copy_nonoverlapping::<u8>(src, dst, n)` on byte memory. -/
def copy_nonoverlapping (mem : Nat → Nat) (src dst n : Nat) : Nat → Nat :=
  fun a => if dst ≤ a ∧ a - dst < n then mem (src + (a - dst)) else mem a

/-- lib.rs `alloc`: pad the requested size, validate the layout, request a
block, verify its alignment, stamp the header, return the payload address. -/
def alloc (os : Oracle) (st : Heap) (size : Nat) : Except AllocationError Nat × Heap :=
  match checked_add size HEADER_SIZE with
  | none => (.error .ArithmeticError, st)
  | some s1 =>
    match checked_next_multiple_of s1 HEADER_SIZE with
    | none => (.error .ArithmeticError, st)
    | some size2 =>
      match layout_from_size_align size2 HEADER_SIZE with
      | none => (.error .LayoutError, st)
      | some layout =>
        if os st.allocCalls layout = 0 then
          (.error .OutOfMemory,
            ⟨st.mem, st.allocCalls ++ [⟨layout.size, layout.align⟩], st.releaseCalls⟩)
        else if os st.allocCalls layout % HEADER_SIZE ≠ 0 then
          (.error .ImproperAlignment,
            ⟨st.mem, st.allocCalls ++ [⟨layout.size, layout.align⟩],
              st.releaseCalls ++ [⟨os st.allocCalls layout, layout.size, layout.align⟩]⟩)
        else
          (.ok (os st.allocCalls layout + HEADER_SIZE),
            ⟨writeBytes (writeBytes st.mem (os st.allocCalls layout) MARKER_USED)
                (os st.allocCalls layout + 8) (usizeToBytes size2),
              st.allocCalls ++ [⟨layout.size, layout.align⟩], st.releaseCalls⟩)

/-- lib.rs `free`: validate the pointer and the derived header, flip the
marker to FREE, release the block. -/
def free (st : Heap) (ptr : Nat) : Except DeallocationError Unit × Heap :=
  if ptr = 0 then
    (.error .NullPtr, st)
  else if ptr % HEADER_SIZE ≠ 0 then
    (.error .ImproperAlignment, st)
  else if (ptr - HEADER_SIZE) % HEADER_ALIGN ≠ 0 then
    (.error .ImproperAlignment, st)
  else if readBytes st.mem (ptr - HEADER_SIZE) 8 = MARKER_FREE then
    (.error .DoubleFree, st)
  else if readBytes st.mem (ptr - HEADER_SIZE) 8 ≠ MARKER_USED then
    (.error .InvalidAllocation, st)
  else
    match layout_from_size_align
        (bytesToUsize (readBytes st.mem (ptr - HEADER_SIZE + 8) 8)) HEADER_SIZE with
    | none => (.error .LayoutError, st)
    | some layout =>
      (.ok (), ⟨writeBytes st.mem (ptr - HEADER_SIZE) MARKER_FREE, st.allocCalls,
        st.releaseCalls ++ [⟨ptr - HEADER_SIZE, layout.size, layout.align⟩]⟩)

/-- The heap at the point of `relloc` between the
`copy_nonoverlapping(ptr, new_ptr, header.size.min(new_size))` and the
`free(ptr)` call: `st1` is the state after the inner allocation, `ptr` the
old payload, `new_ptr` the new payload, and the copy length reads the old
stored `size` field of the old header from the post-allocation memory. -/
def reallocCopyState (st1 : Heap) (ptr new_ptr new_size : Nat) : Heap :=
  ⟨copy_nonoverlapping st1.mem ptr new_ptr
      (min (bytesToUsize (readBytes st1.mem (ptr - HEADER_SIZE + 8) 8)) new_size),
    st1.allocCalls, st1.releaseCalls⟩

/-- lib.rs `relloc`: resize-to-zero frees, null allocates, otherwise validate
the header, allocate, copy `header.size.min(new_size)` bytes, free the old
block, and on failure of that free attempt to free the new block. -/
def relloc (os : Oracle) (st : Heap) (ptr new_size : Nat) :
    Except ReallocationError Nat × Heap :=
  if new_size = 0 then
    if ptr ≠ 0 then
      match free st ptr with
      | (.error e, st1) => (.error (.DeallocationError e), st1)
      | (.ok _, st1) => (.ok 0, st1)
    else
      (.ok 0, st)
  else if ptr = 0 then
    match alloc os st new_size with
    | (.error e, st1) => (.error (.AllocationError e), st1)
    | (.ok p, st1) => (.ok p, st1)
  else if ptr % HEADER_SIZE ≠ 0 then
    (.error .ImproperAlignment, st)
  else if (ptr - HEADER_SIZE) % HEADER_ALIGN ≠ 0 then
    (.error .ImproperAlignment, st)
  else if readBytes st.mem (ptr - HEADER_SIZE) 8 = MARKER_FREE then
    (.error .UseAfterFree, st)
  else if readBytes st.mem (ptr - HEADER_SIZE) 8 ≠ MARKER_USED then
    (.error .InvalidPointer, st)
  else
    match alloc os st new_size with
    | (.error e, st1) => (.error (.AllocationError e), st1)
    | (.ok new_ptr, st1) =>
      match free (reallocCopyState st1 ptr new_ptr new_size) ptr with
      | (.ok _, st3) => (.ok new_ptr, st3)
      | (.error err, st3) =>
        match free st3 new_ptr with
        | (.ok _, st4) => (.error (.DeallocationError err), st4)
        | (.error err2, st4) => (.error (.FreeFailedTwice err err2), st4)

/-! Basic lemmas about the byte-memory operations. -/

theorem writeBytes_of_lt (mem : Nat → Nat) (b : Nat) (bs : List Nat) (a : Nat)
    (h : a < b) : writeBytes mem b bs a = mem a := by
  unfold writeBytes
  rw [if_neg]
  omega

theorem writeBytes_of_ge (mem : Nat → Nat) (b : Nat) (bs : List Nat) (a : Nat)
    (h : b + bs.length ≤ a) : writeBytes mem b bs a = mem a := by
  unfold writeBytes
  rw [if_neg]
  omega

theorem writeBytes_getD (mem : Nat → Nat) (b : Nat) (bs : List Nat) (i : Nat)
    (h : i < bs.length) : writeBytes mem b bs (b + i) = bs.getD i 0 := by
  unfold writeBytes
  rw [if_pos]
  · congr 1
    omega
  · omega

theorem readBytes_writeBytes_self (mem : Nat → Nat) (a n : Nat) (bs : List Nat)
    (h : bs.length = n) : readBytes (writeBytes mem a bs) a n = bs := by
  subst h
  unfold readBytes
  apply List.ext_getElem
  · simp
  · intro i h1 h2
    simp only [List.getElem_map, List.getElem_range]
    rw [writeBytes_getD mem a bs i (by simpa using h2)]
    rw [List.getD_eq_getElem]

theorem readBytes_writeBytes_left (mem : Nat → Nat) (a n b : Nat) (bs : List Nat)
    (h : a + n ≤ b) : readBytes (writeBytes mem b bs) a n = readBytes mem a n := by
  unfold readBytes
  apply List.map_congr_left
  intro i hi
  rw [List.mem_range] at hi
  exact writeBytes_of_lt mem b bs (a + i) (by omega)

theorem readBytes_writeBytes_right (mem : Nat → Nat) (a n b : Nat) (bs : List Nat)
    (h : b + bs.length ≤ a) : readBytes (writeBytes mem b bs) a n = readBytes mem a n := by
  unfold readBytes
  apply List.map_congr_left
  intro i hi
  rw [List.mem_range] at hi
  exact writeBytes_of_ge mem b bs (a + i) (by omega)

theorem usizeToBytes_length (v : Nat) : (usizeToBytes v).length = 8 := by
  simp [usizeToBytes]

theorem bytesToUsize_usizeToBytes (v : Nat) (h : v ≤ USIZE_MAX) :
    bytesToUsize (usizeToBytes v) = v := by
  have hv : v % 2 ^ 64 = v := Nat.mod_eq_of_lt (by unfold USIZE_MAX at h; omega)
  unfold bytesToUsize usizeToBytes
  simp [List.range_succ]
  omega

theorem marker_used_ne_free : MARKER_USED ≠ MARKER_FREE := by decide

/-! Success-path equations for `alloc` and `free`. -/

theorem layout16_of_le (m : Nat) (h : m ≤ ISIZE_MAX - (HEADER_SIZE - 1)) :
    layout_from_size_align m HEADER_SIZE = some ⟨m, HEADER_SIZE⟩ := by
  unfold layout_from_size_align
  rw [if_pos ⟨by decide, h⟩]

theorem alloc_success (os : Oracle) (st : Heap) (s b : Nat)
    (h1 : s + HEADER_SIZE ≤ USIZE_MAX)
    (h2 : next_multiple_of (s + HEADER_SIZE) HEADER_SIZE ≤ USIZE_MAX)
    (h3 : next_multiple_of (s + HEADER_SIZE) HEADER_SIZE ≤ ISIZE_MAX - (HEADER_SIZE - 1))
    (hb : os st.allocCalls ⟨next_multiple_of (s + HEADER_SIZE) HEADER_SIZE, HEADER_SIZE⟩ = b)
    (hb0 : b ≠ 0) (hba : b % HEADER_SIZE = 0) :
    alloc os st s =
      (.ok (b + HEADER_SIZE),
        ⟨writeBytes (writeBytes st.mem b MARKER_USED) (b + 8)
            (usizeToBytes (next_multiple_of (s + HEADER_SIZE) HEADER_SIZE)),
          st.allocCalls ++ [⟨next_multiple_of (s + HEADER_SIZE) HEADER_SIZE, HEADER_SIZE⟩],
          st.releaseCalls⟩) := by
  have e1 : checked_add s HEADER_SIZE = some (s + HEADER_SIZE) := by
    unfold checked_add
    rw [if_pos h1]
  have e2 : checked_next_multiple_of (s + HEADER_SIZE) HEADER_SIZE =
      some (next_multiple_of (s + HEADER_SIZE) HEADER_SIZE) := by
    unfold checked_next_multiple_of
    rw [if_neg (by decide), if_pos h2]
  unfold alloc
  simp only [e1, e2, layout16_of_le _ h3, hb, hba]
  rw [if_neg hb0]
  rw [if_neg (show ¬((0 : Nat) ≠ 0) from fun h => h rfl)]

theorem free_used (st : Heap) (p : Nat) (L : Layout)
    (hp : p ≠ 0) (ha : p % HEADER_SIZE = 0)
    (hm : readBytes st.mem (p - HEADER_SIZE) 8 = MARKER_USED)
    (hl : layout_from_size_align
        (bytesToUsize (readBytes st.mem (p - HEADER_SIZE + 8) 8)) HEADER_SIZE = some L) :
    free st p =
      (.ok (), ⟨writeBytes st.mem (p - HEADER_SIZE) MARKER_FREE, st.allocCalls,
        st.releaseCalls ++ [⟨p - HEADER_SIZE, L.size, L.align⟩]⟩) := by
  have ha2 : (p - HEADER_SIZE) % HEADER_ALIGN = 0 := by
    unfold HEADER_SIZE at ha
    unfold HEADER_SIZE HEADER_ALIGN
    omega
  unfold free
  rw [if_neg hp]
  rw [if_neg (show ¬(p % HEADER_SIZE ≠ 0) from fun h => h ha)]
  split
  · exact absurd ha2 (by assumption)
  · split
    · rename_i hfree
      rw [hm] at hfree
      exact absurd hfree marker_used_ne_free
    · split
      · rename_i hused
        rw [hm] at hused
        exact absurd rfl hused
      · split
        · rename_i hnone
          rw [hl] at hnone
          exact absurd hnone (by simp)
        · rename_i layout hsome
          rw [hl] at hsome
          have hLe : L = layout := Option.some.inj hsome
          subst hLe
          rfl

/-! Concrete fixtures used to instantiate the theorems: deterministic backing
allocators and heap states with known header contents. -/

/-- Backing allocator serving 16-aligned, pairwise disjoint blocks at
addresses 16, 1040, 2064, .... -/
def osA : Oracle := fun calls _ => 16 + 1024 * calls.length

/-- Backing allocator serving 16-aligned, pairwise disjoint blocks at
addresses 256, 1280, 2304, ... (clear of the fixture block at 16). -/
def osB : Oracle := fun calls _ => 256 + 1024 * calls.length

/-- Heap whose memory holds the byte pattern `a % 251` and whose backing
call histories are empty. -/
def st0 : Heap := ⟨fun a => a % 251, [], []⟩

/-- Heap as left by `alloc 100` served at block address 16: header marker
USED, stored size 128 (100 + 16 rounded up to a multiple of 16), payload at
32, all other bytes the pattern `a % 251`. -/
def stC1 : Heap :=
  ⟨writeBytes (writeBytes (fun a => a % 251) 16 MARKER_USED) 24 (usizeToBytes 128), [], []⟩

/-- Heap holding a USED header at 16 whose stored size `2 ^ 63` exceeds
`isize::MAX`, so freeing the payload at 32 fails with a layout error. -/
def stBig : Heap :=
  ⟨writeBytes (writeBytes (fun a => a % 251) 16 MARKER_USED) 24 (usizeToBytes (2 ^ 63)), [], []⟩

/-- Heap holding a FREE header at 16: the payload at 32 was already freed. -/
def stF : Heap := ⟨writeBytes (fun a => a % 251) 16 MARKER_FREE, [], []⟩

/-! Claim theorems. -/

/-- C1 (code evaluated at the failing input): starting from the state left by
`allocate(100)` — header at 16 storing the padded total size 128 — the call
`reallocate(payload = 32, new_size = 120)` succeeds, and the copy
length computed by the code is `min(stored size 128, 120) = 120`: payload bytes at indices 110 and
115, beyond the `min(100, 120) = 100` bytes the claim says are copied (and,
for index 115, beyond the 112-byte capacity of the old payload, an out-of-bounds
read), are nevertheless copied from the old payload into the new payload at
256 + 16 = 272. -/
theorem relloc_copies_padded_block_size :
    (relloc osB stC1 32 120).1 = .ok 272 ∧
    bytesToUsize (readBytes stC1.mem 24 8) = 128 ∧
    min (bytesToUsize (readBytes stC1.mem 24 8)) 120 = 120 ∧
    ((relloc osB stC1 32 120).2).mem (272 + 110) = stC1.mem (32 + 110) ∧
    ((relloc osB stC1 32 120).2).mem (272 + 115) = stC1.mem (32 + 115) ∧
    stC1.mem (272 + 110) ≠ stC1.mem (32 + 110) ∧
    stC1.mem (272 + 115) ≠ stC1.mem (32 + 115) ∧
    min 100 120 < 111 := by
  decide

/-- C3: the total block size is the requested size plus the header size
rounded up to the next multiple of the header size, with overflow-checked
arithmetic: on overflow `alloc` returns ArithmeticError with the state — in
particular the backing-allocator call history — untouched; every layout the
backing allocator does observe carries exactly the computed total size; and
`alloc` at `USIZE_MAX` is the concrete overflow instance. -/
theorem alloc_overflow_checked (os : Oracle) (st : Heap) (s : Nat) :
    (USIZE_MAX < s + HEADER_SIZE ∨
        USIZE_MAX < next_multiple_of (s + HEADER_SIZE) HEADER_SIZE →
      alloc os st s = (.error .ArithmeticError, st)) ∧
    (s + HEADER_SIZE ≤ USIZE_MAX →
      ∀ c ∈ (alloc os st s).2.allocCalls.drop st.allocCalls.length,
        c.size = next_multiple_of (s + HEADER_SIZE) HEADER_SIZE ∧ c.align = HEADER_SIZE) ∧
    alloc os st USIZE_MAX = (.error .ArithmeticError, st) := by
  refine ⟨?_, ?_, ?_⟩
  · intro h
    by_cases h1 : s + HEADER_SIZE ≤ USIZE_MAX
    · have h2 : USIZE_MAX < next_multiple_of (s + HEADER_SIZE) HEADER_SIZE := by
        rcases h with h | h
        · omega
        · exact h
      have e1 : checked_add s HEADER_SIZE = some (s + HEADER_SIZE) := by
        unfold checked_add
        rw [if_pos h1]
      have e2 : checked_next_multiple_of (s + HEADER_SIZE) HEADER_SIZE = none := by
        unfold checked_next_multiple_of
        rw [if_neg (by decide), if_neg (by omega)]
      unfold alloc
      simp only [e1, e2]
    · have e1 : checked_add s HEADER_SIZE = none := by
        unfold checked_add
        rw [if_neg h1]
      unfold alloc
      simp only [e1]
  · intro h1 c hc
    have e1 : checked_add s HEADER_SIZE = some (s + HEADER_SIZE) := by
      unfold checked_add
      rw [if_pos h1]
    by_cases h2 : next_multiple_of (s + HEADER_SIZE) HEADER_SIZE ≤ USIZE_MAX
    · have e2 : checked_next_multiple_of (s + HEADER_SIZE) HEADER_SIZE =
          some (next_multiple_of (s + HEADER_SIZE) HEADER_SIZE) := by
        unfold checked_next_multiple_of
        rw [if_neg (by decide), if_pos h2]
      by_cases h3 : next_multiple_of (s + HEADER_SIZE) HEADER_SIZE ≤
          ISIZE_MAX - (HEADER_SIZE - 1)
      · unfold alloc at hc
        simp only [e1, e2, layout16_of_le _ h3] at hc
        split at hc <;> [skip; split at hc] <;>
          · simp only [List.drop_left] at hc
            simp only [List.mem_singleton] at hc
            subst hc
            exact ⟨rfl, rfl⟩
      · have e3 : layout_from_size_align
            (next_multiple_of (s + HEADER_SIZE) HEADER_SIZE) HEADER_SIZE = none := by
          unfold layout_from_size_align
          rw [if_neg (fun hand => h3 hand.2)]
        unfold alloc at hc
        simp only [e1, e2, e3, List.drop_length] at hc
        exact absurd hc (List.not_mem_nil c)
    · have e2 : checked_next_multiple_of (s + HEADER_SIZE) HEADER_SIZE = none := by
        unfold checked_next_multiple_of
        rw [if_neg (by decide), if_neg (by omega)]
      unfold alloc at hc
      simp only [e1, e2, List.drop_length] at hc
      exact absurd hc (List.not_mem_nil c)
  · have e1 : checked_add USIZE_MAX HEADER_SIZE = none := by decide
    unfold alloc
    simp only [e1]

/-- C3 witness: the overflow branch of the theorem at the concrete size
`USIZE_MAX` with a concrete backing allocator and heap. -/
theorem alloc_overflow_checked_witness :
    alloc osA st0 USIZE_MAX = (.error .ArithmeticError, st0) :=
  (alloc_overflow_checked osA st0 USIZE_MAX).1 (Or.inl (by decide))

/-- C8: `relloc` with new size zero returns a null pointer and otherwise
behaves exactly as `free` does on the pointer: on a null pointer the state is
untouched, otherwise the state is exactly the state `free` produces and any
`free` error is propagated wrapped as DeallocationError. -/
theorem relloc_zero_frees (os : Oracle) (st : Heap) (p : Nat) :
    relloc os st p 0 =
      if p = 0 then (.ok 0, st)
      else
        match free st p with
        | (.error e, st1) => (.error (.DeallocationError e), st1)
        | (.ok _, st1) => (.ok 0, st1) := by
  unfold relloc
  rw [if_pos rfl]
  by_cases hp : p = 0
  · rw [if_neg (fun h => h hp), if_pos hp]
  · rw [if_pos hp, if_neg hp]

/-- C9: `relloc` of a null pointer with a non-zero size is exactly `alloc`:
the same returned pointer, the same resulting state, and any allocation
error propagated wrapped as AllocationError. -/
theorem relloc_null_allocates (os : Oracle) (st : Heap) (n : Nat) (hn : n ≠ 0) :
    relloc os st 0 n =
      match alloc os st n with
      | (.error e, st1) => (.error (.AllocationError e), st1)
      | (.ok p, st1) => (.ok p, st1) := by
  unfold relloc
  rw [if_neg hn, if_pos rfl]

/-- C9 witness: the theorem at size 1 with a concrete backing allocator that
serves the request, so the delegated allocation succeeds. -/
theorem relloc_null_allocates_witness :
    (1 : Nat) ≠ 0 ∧
      relloc osA st0 0 1 =
        match alloc osA st0 1 with
        | (.error e, st1) => (.error (.AllocationError e), st1)
        | (.ok p, st1) => (.ok p, st1) :=
  ⟨by decide, relloc_null_allocates osA st0 1 (by decide)⟩

/-- C2: whenever the padded total size is representable (no overflow, a valid
layout) and the backing allocator serves the request with a non-null,
header-aligned block `b`, `alloc` succeeds, the returned payload pointer
`b + HEADER_SIZE` is non-null and aligned to the header size, and a single
subsequent `free` of that pointer succeeds. -/
theorem alloc_then_free_roundtrip (os : Oracle) (st : Heap) (s b : Nat)
    (h1 : s + HEADER_SIZE ≤ USIZE_MAX)
    (h2 : next_multiple_of (s + HEADER_SIZE) HEADER_SIZE ≤ USIZE_MAX)
    (h3 : next_multiple_of (s + HEADER_SIZE) HEADER_SIZE ≤ ISIZE_MAX - (HEADER_SIZE - 1))
    (hb : os st.allocCalls ⟨next_multiple_of (s + HEADER_SIZE) HEADER_SIZE, HEADER_SIZE⟩ = b)
    (hb0 : b ≠ 0) (hba : b % HEADER_SIZE = 0) :
    (alloc os st s).1 = .ok (b + HEADER_SIZE) ∧
    b + HEADER_SIZE ≠ 0 ∧
    (b + HEADER_SIZE) % HEADER_SIZE = 0 ∧
    (free (alloc os st s).2 (b + HEADER_SIZE)).1 = .ok () := by
  have hane : b + HEADER_SIZE ≠ 0 := by
    unfold HEADER_SIZE
    omega
  have hal : (b + HEADER_SIZE) % HEADER_SIZE = 0 := by
    unfold HEADER_SIZE at hba ⊢
    omega
  have hsub : b + HEADER_SIZE - HEADER_SIZE = b := by omega
  have hs := alloc_success os st s b h1 h2 h3 hb hb0 hba
  rw [hs]
  have hr1 : readBytes
      (writeBytes (writeBytes st.mem b MARKER_USED) (b + 8)
        (usizeToBytes (next_multiple_of (s + HEADER_SIZE) HEADER_SIZE))) b 8 = MARKER_USED := by
    rw [readBytes_writeBytes_left _ b 8 (b + 8) _ (by omega)]
    exact readBytes_writeBytes_self st.mem b 8 MARKER_USED rfl
  have hr2 : readBytes
      (writeBytes (writeBytes st.mem b MARKER_USED) (b + 8)
        (usizeToBytes (next_multiple_of (s + HEADER_SIZE) HEADER_SIZE))) (b + 8) 8 =
      usizeToBytes (next_multiple_of (s + HEADER_SIZE) HEADER_SIZE) := by
    exact readBytes_writeBytes_self _ (b + 8) 8 _ (usizeToBytes_length _)
  refine ⟨rfl, hane, hal, ?_⟩
  rw [free_used _ (b + HEADER_SIZE) ⟨next_multiple_of (s + HEADER_SIZE) HEADER_SIZE, HEADER_SIZE⟩
    hane hal (by rw [hsub]; exact hr1) ?_]
  rw [hsub, hr2, bytesToUsize_usizeToBytes _ h2]
  exact layout16_of_le _ h3

/-- C2 witness: `alloc 100` served at block 16 by a conforming backing
allocator returns payload 32, which a single `free` then releases. -/
theorem alloc_then_free_roundtrip_witness :
    (alloc osA st0 100).1 = .ok 32 ∧ (32 : Nat) ≠ 0 ∧ (32 : Nat) % HEADER_SIZE = 0 ∧
    (free (alloc osA st0 100).2 32).1 = .ok () :=
  alloc_then_free_roundtrip osA st0 100 16 (by decide) (by decide) (by decide) (by decide)
    (by decide) (by decide)

/-- C7: on a successful allocation served at block address `b`, the header at
the start of the block — which is the returned payload pointer minus the header
size — holds marker USED and the computed padded total size, and the payload
pointer is `b + HEADER_SIZE`, aligned to the header size. -/
theorem alloc_header_contents (os : Oracle) (st : Heap) (s b : Nat)
    (h1 : s + HEADER_SIZE ≤ USIZE_MAX)
    (h2 : next_multiple_of (s + HEADER_SIZE) HEADER_SIZE ≤ USIZE_MAX)
    (h3 : next_multiple_of (s + HEADER_SIZE) HEADER_SIZE ≤ ISIZE_MAX - (HEADER_SIZE - 1))
    (hb : os st.allocCalls ⟨next_multiple_of (s + HEADER_SIZE) HEADER_SIZE, HEADER_SIZE⟩ = b)
    (hb0 : b ≠ 0) (hba : b % HEADER_SIZE = 0) :
    (alloc os st s).1 = .ok (b + HEADER_SIZE) ∧
    (b + HEADER_SIZE) % HEADER_SIZE = 0 ∧
    b + HEADER_SIZE - HEADER_SIZE = b ∧
    readBytes (alloc os st s).2.mem b 8 = MARKER_USED ∧
    bytesToUsize (readBytes (alloc os st s).2.mem (b + 8) 8) =
      next_multiple_of (s + HEADER_SIZE) HEADER_SIZE := by
  have hs := alloc_success os st s b h1 h2 h3 hb hb0 hba
  rw [hs]
  refine ⟨rfl, ?_, by omega, ?_, ?_⟩
  · unfold HEADER_SIZE at hba ⊢
    omega
  · rw [readBytes_writeBytes_left _ b 8 (b + 8) _ (by omega)]
    exact readBytes_writeBytes_self st.mem b 8 MARKER_USED rfl
  · rw [readBytes_writeBytes_self _ (b + 8) 8 _ (usizeToBytes_length _)]
    exact bytesToUsize_usizeToBytes _ h2

/-- C7 witness: `alloc 16` served at block 16 returns payload 32, and the
header at 32 - 16 decodes to marker USED and size 32 = roundup(16 + 16, 16). -/
theorem alloc_header_contents_witness :
    (alloc osA st0 16).1 = .ok 32 ∧ (32 : Nat) % HEADER_SIZE = 0 ∧
    (32 : Nat) - HEADER_SIZE = 16 ∧
    readBytes (alloc osA st0 16).2.mem 16 8 = MARKER_USED ∧
    bytesToUsize (readBytes (alloc osA st0 16).2.mem (16 + 8) 8) =
      next_multiple_of (16 + HEADER_SIZE) HEADER_SIZE :=
  alloc_header_contents osA st0 16 16 (by decide) (by decide) (by decide) (by decide)
    (by decide) (by decide)

/-- C4: every error return of `free` leaves the state — memory, headers and
the backing-allocator histories — exactly as it was; and after a successful
`free`, freeing the same pointer again returns DoubleFree, again changing
nothing, the first call having appended exactly one release to the backing-allocator
history. -/
theorem free_error_leaves_state_untouched (st : Heap) (p : Nat) :
    (∀ e, (free st p).1 = .error e → (free st p).2 = st) ∧
    (∀ st1, free st p = (.ok (), st1) →
      free st1 p = (.error .DoubleFree, st1) ∧
      ∃ c, st1.releaseCalls = st.releaseCalls ++ [c]) := by
  constructor
  · have key : (free st p).1 = .ok () ∨ (free st p).2 = st := by
      unfold free
      split
      · exact Or.inr rfl
      · split
        · exact Or.inr rfl
        · split
          · exact Or.inr rfl
          · split
            · exact Or.inr rfl
            · split
              · exact Or.inr rfl
              · split
                · exact Or.inr rfl
                · exact Or.inl rfl
    intro e he
    rcases key with hk | hk
    · rw [hk] at he
      exact absurd he (by simp)
    · exact hk
  · intro st1 h
    unfold free at h
    split at h
    · simp at h
    · split at h
      · simp at h
      · split at h
        · simp at h
        · split at h
          · simp at h
          · split at h
            · simp at h
            · split at h
              · simp at h
              · rename_i h0 h1 h2 h3 h4 oL layout heq
                injection h with h5 h6
                have hmm : readBytes st1.mem (p - HEADER_SIZE) 8 = MARKER_FREE := by
                  rw [← h6]
                  exact readBytes_writeBytes_self st.mem (p - HEADER_SIZE) 8 MARKER_FREE rfl
                refine ⟨?_, ⟨p - HEADER_SIZE, layout.size, layout.align⟩, by rw [← h6]⟩
                unfold free
                rw [if_neg h0, if_neg h1, if_neg h2, if_pos hmm]

/-- C4 witness: one successful `free` of the payload at 32 appends exactly one
backing release, and a second `free` of the same pointer reports DoubleFree
without touching the state. -/
theorem free_error_leaves_state_untouched_witness :
    free (free stC1 32).2 32 = (.error .DoubleFree, (free stC1 32).2) ∧
    ∃ c, (free stC1 32).2.releaseCalls = stC1.releaseCalls ++ [c] :=
  (free_error_leaves_state_untouched stC1 32).2 (free stC1 32).2
    (by
      have h1 : (free stC1 32).1 = Except.ok () := by decide
      calc free stC1 32 = ((free stC1 32).1, (free stC1 32).2) := rfl
        _ = (.ok (), (free stC1 32).2) := by rw [h1])

/-- C5: `free` classifies its argument in order — null yields NullPtr, a
misaligned pointer yields ImproperAlignment, a FREE marker yields DoubleFree,
a marker that is neither USED nor FREE yields InvalidAllocation, all four
without touching the state; a USED marker alone proceeds (to a release, or a
LayoutError on an invalid stored size); and any change to the backing
release history implies the marker was USED. -/
theorem free_classification_order (st : Heap) (p : Nat) :
    (p = 0 → free st p = (.error .NullPtr, st)) ∧
    (p ≠ 0 → p % HEADER_SIZE ≠ 0 → free st p = (.error .ImproperAlignment, st)) ∧
    (p ≠ 0 → p % HEADER_SIZE = 0 →
      readBytes st.mem (p - HEADER_SIZE) 8 = MARKER_FREE →
      free st p = (.error .DoubleFree, st)) ∧
    (p ≠ 0 → p % HEADER_SIZE = 0 →
      readBytes st.mem (p - HEADER_SIZE) 8 ≠ MARKER_FREE →
      readBytes st.mem (p - HEADER_SIZE) 8 ≠ MARKER_USED →
      free st p = (.error .InvalidAllocation, st)) ∧
    (p ≠ 0 → p % HEADER_SIZE = 0 →
      readBytes st.mem (p - HEADER_SIZE) 8 = MARKER_USED →
      (free st p).1 = .error .LayoutError ∨ (free st p).1 = .ok ()) ∧
    ((free st p).2.releaseCalls ≠ st.releaseCalls →
      readBytes st.mem (p - HEADER_SIZE) 8 = MARKER_USED) := by
  refine ⟨?_, ?_, ?_, ?_, ?_, ?_⟩
  · intro hp
    unfold free
    rw [if_pos hp]
  · intro hp hpa
    unfold free
    rw [if_neg hp, if_pos hpa]
  · intro hp hpa hmF
    have ha2 : ¬((p - HEADER_SIZE) % HEADER_ALIGN ≠ 0) := by
      unfold HEADER_SIZE at hpa
      unfold HEADER_SIZE HEADER_ALIGN
      omega
    unfold free
    rw [if_neg hp, if_neg (fun h => h hpa), if_neg ha2, if_pos hmF]
  · intro hp hpa hmF hmU
    have ha2 : ¬((p - HEADER_SIZE) % HEADER_ALIGN ≠ 0) := by
      unfold HEADER_SIZE at hpa
      unfold HEADER_SIZE HEADER_ALIGN
      omega
    unfold free
    rw [if_neg hp, if_neg (fun h => h hpa), if_neg ha2, if_neg hmF, if_pos hmU]
  · intro hp hpa hmU
    have ha2 : ¬((p - HEADER_SIZE) % HEADER_ALIGN ≠ 0) := by
      unfold HEADER_SIZE at hpa
      unfold HEADER_SIZE HEADER_ALIGN
      omega
    unfold free
    rw [if_neg hp, if_neg (fun h => h hpa), if_neg ha2, hmU,
      if_neg marker_used_ne_free, if_neg (show ¬(MARKER_USED ≠ MARKER_USED) from fun h => h rfl)]
    cases hL : layout_from_size_align
        (bytesToUsize (readBytes st.mem (p - HEADER_SIZE + 8) 8)) HEADER_SIZE
    · exact Or.inl rfl
    · exact Or.inr rfl
  · intro hrel
    unfold free at hrel
    split at hrel
    · exact absurd rfl hrel
    · split at hrel
      · exact absurd rfl hrel
      · split at hrel
        · exact absurd rfl hrel
        · split at hrel
          · exact absurd rfl hrel
          · split at hrel
            · exact absurd rfl hrel
            · split at hrel
              · exact absurd rfl hrel
              · rename_i hU oL layout heq
                exact not_not.mp hU

/-- C5 witness: the DoubleFree conjunct of the theorem at the fixture whose
header at 16 already carries the FREE marker. -/
theorem free_classification_order_witness :
    free stF 32 = (.error .DoubleFree, stF) :=
  (free_classification_order stF 32).2.2.1 (by decide) (by decide) (by decide)

/-- C10: the alignment of the header equals the header size; subtracting the
header size from a non-null multiple of it yields another multiple, so for a
header-aligned pointer neither `free` nor `relloc` can ever return its own
ImproperAlignment error — the guard on the derived header address is
unreachable. -/
theorem aligned_header_never_misaligned :
    HEADER_ALIGN = HEADER_SIZE ∧
    (∀ p : Nat, p % HEADER_SIZE = 0 → p ≠ 0 → (p - HEADER_SIZE) % HEADER_ALIGN = 0) ∧
    (∀ st p, p % HEADER_SIZE = 0 → (free st p).1 ≠ .error .ImproperAlignment) ∧
    (∀ os st p n, p % HEADER_SIZE = 0 →
      (relloc os st p n).1 ≠ .error .ImproperAlignment) := by
  refine ⟨rfl, ?_, ?_, ?_⟩
  · intro p hpa hp
    unfold HEADER_SIZE at hpa
    unfold HEADER_SIZE HEADER_ALIGN
    omega
  · intro st p hpa he
    unfold free at he
    split at he
    · simp at he
    · split at he
      · rename_i h0 h1
        exact h1 hpa
      · split at he
        · rename_i h0 h1 h2
          refine absurd ?_ h2
          unfold HEADER_SIZE at hpa
          unfold HEADER_SIZE HEADER_ALIGN
          omega
        · split at he
          · simp at he
          · split at he
            · simp at he
            · split at he
              · simp at he
              · simp at he
  · intro os st p n hpa he
    unfold relloc at he
    split at he
    · split at he
      · split at he
        · simp at he
        · simp at he
      · simp at he
    · split at he
      · split at he
        · simp at he
        · simp at he
      · split at he
        · rename_i h0 h1 h2
          exact h2 hpa
        · split at he
          · rename_i h0 h1 h2 h3
            refine absurd ?_ h3
            unfold HEADER_SIZE at hpa
            unfold HEADER_SIZE HEADER_ALIGN
            omega
          · split at he
            · simp at he
            · split at he
              · simp at he
              · split at he
                · simp at he
                · split at he
                  · simp at he
                  · split at he
                    · simp at he
                    · simp at he

/-- C10 witness: at the header-aligned pointer 32, neither `free` nor
`relloc` reports its ImproperAlignment error. -/
theorem aligned_header_never_misaligned_witness :
    (32 : Nat) - HEADER_SIZE = 16 ∧
    (free st0 32).1 ≠ .error .ImproperAlignment ∧
    (relloc osA st0 32 5).1 ≠ .error .ImproperAlignment :=
  ⟨by decide,
    aligned_header_never_misaligned.2.2.1 st0 32 (by decide),
    aligned_header_never_misaligned.2.2.2 osA st0 32 5 (by decide)⟩

/-- C6: in `relloc` with a non-null aligned pointer, a non-zero size and a
USED header, when the inner allocation returned `q` and the post-copy `free`
of the old pointer fails with `e`, the result is determined by a `free` of
the new pointer `q`: if it succeeds the original error is returned wrapped as
DeallocationError, and if it fails with `e2` the result is
`FreeFailedTwice e e2`, carrying both errors in order. -/
theorem relloc_free_failure_recovery (os : Oracle) (st : Heap) (p n q : Nat)
    (st1 : Heap) (e : DeallocationError)
    (hn : n ≠ 0) (hp : p ≠ 0) (ha : p % HEADER_SIZE = 0)
    (hm : readBytes st.mem (p - HEADER_SIZE) 8 = MARKER_USED)
    (hal : alloc os st n = (.ok q, st1))
    (herr : (free (reallocCopyState st1 p q n) p).1 = .error e) :
    relloc os st p n =
      (match (free (free (reallocCopyState st1 p q n) p).2 q).1 with
        | .ok _ => .error (.DeallocationError e)
        | .error e2 => .error (.FreeFailedTwice e e2),
        (free (free (reallocCopyState st1 p q n) p).2 q).2) := by
  have ha2 : ¬((p - HEADER_SIZE) % HEADER_ALIGN ≠ 0) := by
    unfold HEADER_SIZE at ha
    unfold HEADER_SIZE HEADER_ALIGN
    omega
  unfold relloc
  rw [if_neg hn, if_neg hp, if_neg (fun h => h ha), if_neg ha2, hm,
    if_neg marker_used_ne_free,
    if_neg (show ¬(MARKER_USED ≠ MARKER_USED) from fun h => h rfl)]
  simp only [hal]
  rcases hfp : free (reallocCopyState st1 p q n) p with ⟨r3, st3⟩
  rw [hfp] at herr
  have hr3 : r3 = .error e := herr
  subst hr3
  show (match free st3 q with
      | (.ok _, st4) => (Except.error (ReallocationError.DeallocationError e), st4)
      | (.error err2, st4) => (Except.error (ReallocationError.FreeFailedTwice e err2), st4)) =
    (match (free st3 q).1 with
      | .ok _ => Except.error (ReallocationError.DeallocationError e)
      | .error e2 => Except.error (ReallocationError.FreeFailedTwice e e2),
      (free st3 q).2)
  rcases hq : free st3 q with ⟨r, st4⟩
  cases r
  · rfl
  · rfl

/-- C6 witness: the old header at 16 stores the unservable size `2 ^ 63`, so
after the copy the `free` of the old payload 32 fails with LayoutError; the
`free` of the new payload 272 then succeeds and `relloc` returns the original
error wrapped as DeallocationError. -/
theorem relloc_free_failure_recovery_witness :
    relloc osB stBig 32 16 =
      (match (free (free (reallocCopyState (alloc osB stBig 16).2 32 272 16) 32).2 272).1 with
        | .ok _ => .error (.DeallocationError .LayoutError)
        | .error e2 => .error (.FreeFailedTwice .LayoutError e2),
        (free (free (reallocCopyState (alloc osB stBig 16).2 32 272 16) 32).2 272).2) :=
  relloc_free_failure_recovery osB stBig 32 16 272 (alloc osB stBig 16).2 .LayoutError
    (by decide) (by decide) (by decide) (by decide)
    (by
      have h1 : (alloc osB stBig 16).1 = Except.ok 272 := by decide
      calc alloc osB stBig 16 = ((alloc osB stBig 16).1, (alloc osB stBig 16).2) := rfl
        _ = (.ok 272, (alloc osB stBig 16).2) := by rw [h1])
    (by decide)

end PsAlloc
